import Mathlib

/-!
Verification development for the SK Associate loan-consultancy website.

The front-end source (a single React component) is embedded shallowly:
the EMI calculator state and its update functions become pure Lean
functions over rational numbers, and the lead-form submission handler
becomes a pure function of the form state, the optional attached file
and the outcome of the network call.  The serverless lead-delivery
endpoint described by the specification is not part of the source tree;
it is modelled from the specification text where needed.

Numbers: the source works with JavaScript numbers.  They are modelled
as rationals; the tenure (years) field is modelled at integer
granularity so that the power `(1+r)^n` with `n = 12*years` is exact
rational exponentiation.  `Number(x.toFixed(2))` is modelled as
rounding half-up to two decimal places.
-/

namespace SKAssociate

/-- Brand configuration object from the source component. -/
structure Brand where
  name : String
  tagline : String
  phone : String
  email : String
  primary : String
deriving DecidableEq

/-- The concrete brand record of the source. -/
def brand : Brand :=
  { name := "SK Associate"
  , tagline := "Fast approvals • Honest advice • Best rates"
  , phone := "+91 87608 54861"
  , email := "info@skassociate.com"
  , primary := "indigo-600" }

/-- State of the EMI calculator: principal, annual rate, tenure in
years, and the displayed EMI (null before any calculation). -/
structure CalcState where
  principal : ℚ
  annualRate : ℚ
  years : ℤ
  emi : Option ℚ
deriving DecidableEq

/-- Model of JavaScript Number(x.toFixed(2)): round to two decimal
places (half-up, which agrees with toFixed on the nonnegative values
the calculator produces). -/
def round2 (x : ℚ) : ℚ := (⌊x * 100 + 1 / 2⌋ : ℚ) / 100

/-- Shallow embedding of calculateEMI from the source: computes the
monthly rate and the number of installments, returns unchanged when
the installment count is zero, uses the flat division when the rate is
zero, and otherwise applies the amortization formula; the result is
stored rounded to two decimals. -/
def calculateEMI (c : CalcState) : CalcState :=
  let P : ℚ := c.principal
  let r : ℚ := c.annualRate / 12 / 100
  let n : ℤ := c.years * 12
  if n = 0 then c
  else if r = 0 then { c with emi := some (round2 (P / (n : ℚ))) }
  else
    let emi : ℚ := P * r * (1 + r) ^ n / ((1 + r) ^ n - 1)
    { c with emi := some (round2 emi) }

/-- Model of the calculator Reset button onClick: setCalc with the
spread of the current state and emi set to null. -/
def resetCalc (c : CalcState) : CalcState := { c with emi := none }

/-- Closed-form amortization formula of the specification, with
monthly rate r = a/12/100 and installment count n = 12*y. -/
def emiFormula (P a : ℚ) (y : ℤ) : ℚ :=
  let r : ℚ := a / 12 / 100
  let n : ℤ := y * 12
  P * r * (1 + r) ^ n / ((1 + r) ^ n - 1)

lemma abs_round2_sub_le (x : ℚ) : |round2 x - x| ≤ 1 / 200 := by
  have h1 : (⌊x * 100 + 1 / 2⌋ : ℚ) ≤ x * 100 + 1 / 2 := Int.floor_le _
  have h2 : x * 100 + 1 / 2 - 1 < (⌊x * 100 + 1 / 2⌋ : ℚ) := Int.sub_one_lt_floor _
  rw [abs_le]
  constructor
  · unfold round2; linarith
  · unfold round2; linarith

lemma round2_eq_self (x : ℚ) (k : ℤ) (hk : x * 100 = (k : ℚ)) : round2 x = x := by
  have hfloor : ⌊x * 100 + 1 / 2⌋ = k := by
    rw [hk, add_comm]
    rw [Int.floor_add_int]
    norm_num
  unfold round2
  rw [hfloor]
  field_simp at hk ⊢
  linarith

/-- C8: when the tenure is zero the installment count n is zero and
calculateEMI returns before any division: the whole calculator state,
including the displayed EMI, is unchanged. -/
theorem calculateEMI_years_zero (c : CalcState) (h : c.years = 0) :
    calculateEMI c = c := by
  unfold calculateEMI
  simp [h]

theorem calculateEMI_years_zero_witness :
    calculateEMI { principal := 500000, annualRate := 10, years := 0, emi := some 7 } =
      { principal := 500000, annualRate := 10, years := 0, emi := some 7 } :=
  calculateEMI_years_zero { principal := 500000, annualRate := 10, years := 0, emi := some 7 } rfl

/-- C10: the calculator Reset button sets only the emi result to null,
leaving principal, annualRate and years unchanged. -/
theorem resetCalc_spec (c : CalcState) :
    (resetCalc c).principal = c.principal ∧ (resetCalc c).annualRate = c.annualRate ∧
      (resetCalc c).years = c.years ∧ (resetCalc c).emi = none :=
  ⟨rfl, rfl, rfl, rfl⟩

/-- C4: for positive rate and positive tenure, calculateEMI stores the
closed-form amortization value rounded to two decimals, so the stored
value agrees with the formula to within one hundredth. -/
theorem calculateEMI_formula (P a : ℚ) (y : ℤ) (e : Option ℚ) (ha : 0 < a) (hy : 0 < y) :
    (calculateEMI { principal := P, annualRate := a, years := y, emi := e }).emi =
      some (round2 (emiFormula P a y)) ∧
    |round2 (emiFormula P a y) - emiFormula P a y| ≤ 1 / 100 := by
  constructor
  · have hn : ¬ (y * 12 = 0) := by
      intro h
      omega
    have hr : ¬ (a / 12 / 100 = 0) := by
      intro h
      rw [div_eq_zero_iff] at h
      rcases h with h | h
      · rw [div_eq_zero_iff] at h
        rcases h with h | h
        · exact absurd h (ne_of_gt ha)
        · norm_num at h
      · norm_num at h
    unfold calculateEMI emiFormula
    simp only [hn, hr, if_false]
  · calc |round2 (emiFormula P a y) - emiFormula P a y| ≤ 1 / 200 :=
          abs_round2_sub_le (emiFormula P a y)
      _ ≤ 1 / 100 := by norm_num

theorem calculateEMI_formula_witness :
    (calculateEMI { principal := 500000, annualRate := 10, years := 5, emi := none }).emi =
      some (round2 (emiFormula 500000 10 5)) ∧
    |round2 (emiFormula 500000 10 5) - emiFormula 500000 10 5| ≤ 1 / 100 :=
  calculateEMI_formula 500000 10 5 none (by norm_num) (by norm_num)

/-- C5 counterexample: with annualRate 0, principal 100 and tenure one
year the code stores the two-decimal rounding 8.33, not the exact
quotient 100/12. -/
theorem calculateEMI_zero_rate_not_exact :
    (calculateEMI { principal := 100, annualRate := 0, years := 1, emi := none }).emi ≠
      some ((100 : ℚ) / ((1 : ℚ) * 12)) := by
  norm_num [calculateEMI, round2]

/-- C5 (amended): with annualRate 0 and positive tenure, calculateEMI
stores principal / (years*12) rounded to two decimal places; the value
is exact whenever that quotient has at most two decimal places. -/
theorem calculateEMI_zero_rate (P : ℚ) (y : ℤ) (e : Option ℚ) (hy : 0 < y) :
    (calculateEMI { principal := P, annualRate := 0, years := y, emi := e }).emi =
      some (round2 (P / ((y : ℚ) * 12))) ∧
    (∀ k : ℤ, P / ((y : ℚ) * 12) * 100 = (k : ℚ) →
      round2 (P / ((y : ℚ) * 12)) = P / ((y : ℚ) * 12)) := by
  constructor
  · have hn : ¬ (y * 12 = 0) := by
      intro h
      omega
    unfold calculateEMI
    simp only [hn, if_false]
    norm_num
  · intro k hk
    exact round2_eq_self _ k hk

theorem calculateEMI_zero_rate_witness :
    (calculateEMI { principal := 100, annualRate := 0, years := 1, emi := none }).emi =
      some (round2 ((100 : ℚ) / ((1 : ℚ) * 12))) :=
  (calculateEMI_zero_rate 100 1 none (by norm_num)).1

/-- A single file attached to the lead form, identified by name. -/
structure FileRef where
  filename : String
deriving DecidableEq

/-- State of the lead form: seven scalar string fields, in the
insertion order of the source object literal. -/
structure Form where
  name : String
  phone : String
  email : String
  message : String
  loanType : String
  amount : String
  source : String
deriving DecidableEq

/-- The initial form state of the source component. -/
def initialForm : Form :=
  { name := "", phone := "", email := "", message := "", loanType := "Personal"
  , amount := "", source := "Website" }

/-- A value appended to a FormData body: a scalar string or a file. -/
inductive FormValue where
  | str : String → FormValue
  | file : FileRef → FormValue
deriving DecidableEq

/-- Object.entries of the form state, in insertion order. -/
def formEntries (f : Form) : List (String × String) :=
  [("name", f.name), ("phone", f.phone), ("email", f.email), ("message", f.message),
   ("loanType", f.loanType), ("amount", f.amount), ("source", f.source)]

/-- The multipart body built by handleSubmit: every form entry is
appended as a scalar, then the chosen file, when present, is appended
under the field name document. -/
def buildLeadFormData (f : Form) (doc : Option FileRef) : List (String × FormValue) :=
  (formEntries f).map (fun p => (p.1, FormValue.str p.2)) ++
    (match doc with
     | some fl => [("document", FormValue.file fl)]
     | none => [])

/-- An outgoing HTTP request as the client assembles it. -/
structure Request where
  method : String
  url : String
  body : List (String × FormValue)
deriving DecidableEq

/-- The request handleSubmit sends: POST to /api/lead with the
multipart body. -/
def leadRequest (f : Form) (doc : Option FileRef) : Request :=
  { method := "POST", url := "/api/lead", body := buildLeadFormData f doc }

/-- C6: handleSubmit posts to /api/lead a multipart body holding
exactly the seven scalar form fields, plus the chosen file under the
field name document exactly when a file was chosen. -/
theorem leadRequest_spec (f : Form) (doc : Option FileRef) :
    (leadRequest f doc).method = "POST" ∧ (leadRequest f doc).url = "/api/lead" ∧
    (leadRequest f doc).body =
      [("name", FormValue.str f.name), ("phone", FormValue.str f.phone),
       ("email", FormValue.str f.email), ("message", FormValue.str f.message),
       ("loanType", FormValue.str f.loanType), ("amount", FormValue.str f.amount),
       ("source", FormValue.str f.source)] ++
        (match doc with
         | some fl => [("document", FormValue.file fl)]
         | none => []) ∧
    (("document" ∈ ((leadRequest f doc).body.map Prod.fst)) ↔ doc.isSome) := by
  refine ⟨rfl, rfl, rfl, ?_⟩
  cases doc with
  | none => simp [leadRequest, buildLeadFormData, formEntries]
  | some fl => simp [leadRequest, buildLeadFormData, formEntries]

/-- Outcome of the fetch call to the backend as the client observes
it: the network call itself fails, or a response arrives with an ok
flag. -/
inductive FetchOutcome where
  | networkError : FetchOutcome
  | response : Bool → FetchOutcome
deriving DecidableEq

/-- A mailto link the fallback opens, kept structured: addressee,
subject and body. -/
structure MailtoLink where
  toAddr : String
  subject : String
  body : String
deriving DecidableEq

/-- The mailto link handleSubmit builds in its catch branch: addressed
to the brand email, subject from the brand name, body listing the
entered lead details line by line. -/
def mailtoLink (f : Form) : MailtoLink :=
  { toAddr := brand.email
  , subject := brand.name ++ " — Lead from website"
  , body := "Name: " ++ f.name ++ "\nPhone: " ++ f.phone ++ "\nEmail: " ++ f.email ++
      "\nLoan Type: " ++ f.loanType ++ "\nAmount: " ++ f.amount ++ "\nMessage: " ++ f.message }

/-- The client-side state handleSubmit leaves behind, together with
the request it sent and the mailto link it opened, if any. -/
structure SubmitResult where
  request : Request
  formAfter : Form
  fileAfter : Option FileRef
  submitted : Bool
  uploading : Bool
  errorMsg : String
  mailto : Option MailtoLink
deriving DecidableEq

/-- The fallback notice handleSubmit displays in its catch branch. -/
def fallbackNotice : String := "Unable to submit to backend — opening email client as fallback."

/-- Shallow embedding of handleSubmit: posts the multipart body; on an
ok response it marks the submission, resets the form to its initial
state and clears the file input; when the fetch itself fails or the
response is not ok it reaches the catch branch, which keeps the form,
opens the mailto link built from the entered data and shows the
fallback notice.  The finally branch clears the uploading flag on
every path. -/
def handleSubmit (f : Form) (doc : Option FileRef) (outcome : FetchOutcome) : SubmitResult :=
  match outcome with
  | FetchOutcome.response true =>
      { request := leadRequest f doc, formAfter := initialForm, fileAfter := none
      , submitted := true, uploading := false, errorMsg := "", mailto := none }
  | FetchOutcome.response false =>
      { request := leadRequest f doc, formAfter := f, fileAfter := doc
      , submitted := false, uploading := false, errorMsg := fallbackNotice
      , mailto := some (mailtoLink f) }
  | FetchOutcome.networkError =>
      { request := leadRequest f doc, formAfter := f, fileAfter := doc
      , submitted := false, uploading := false, errorMsg := fallbackNotice
      , mailto := some (mailtoLink f) }

/-- C7 counterexample: when the network call succeeds but the backend
answers with a non-ok status, handleSubmit still opens the mailto
fallback, so the fallback does not fire only on network failure. -/
theorem mailto_opens_on_server_error :
    (handleSubmit initialForm none (FetchOutcome.response false)).mailto =
      some (mailtoLink initialForm) ∧
    FetchOutcome.response false ≠ FetchOutcome.networkError := by
  exact ⟨rfl, by simp⟩

/-- C7 (amended): handleSubmit opens the mailto fallback, addressed to
the brand email with the lead details in the body, exactly when the
outcome is not an ok response: on a network failure and also on a
non-ok backend response; never on success. -/
theorem mailto_fallback_iff (f : Form) (doc : Option FileRef) (o : FetchOutcome) :
    (handleSubmit f doc o).mailto =
      (if o = FetchOutcome.response true then none else some (mailtoLink f)) ∧
    (mailtoLink f).toAddr = brand.email ∧
    (mailtoLink f).body = "Name: " ++ f.name ++ "\nPhone: " ++ f.phone ++ "\nEmail: " ++
      f.email ++ "\nLoan Type: " ++ f.loanType ++ "\nAmount: " ++ f.amount ++
      "\nMessage: " ++ f.message := by
  refine ⟨?_, rfl, rfl⟩
  cases o with
  | networkError => simp [handleSubmit]
  | response ok => cases ok <;> simp [handleSubmit]

/-- C9: handleSubmit resets the form to its initial defaults and
clears the file input exactly on an ok backend response; on the
network-failure and non-ok paths the entered values and the chosen
file are left unchanged. -/
theorem form_reset_only_on_success (f : Form) (doc : Option FileRef) (o : FetchOutcome) :
    (handleSubmit f doc o).formAfter =
      (if o = FetchOutcome.response true then initialForm else f) ∧
    (handleSubmit f doc o).fileAfter =
      (if o = FetchOutcome.response true then none else doc) := by
  cases o with
  | networkError => simp [handleSubmit]
  | response ok => cases ok <;> simp [handleSubmit]

/-- Modelled from the spec: behaviour of one delivery provider for a
given request, as the coordinator observes it — the provider is not
configured, or it is configured and its attempt fails, or it is
configured and its attempt succeeds with an opaque reference. -/
inductive ProviderBehavior where
  | notConfigured : ProviderBehavior
  | failed : ProviderBehavior
  | succeeded : String → ProviderBehavior
deriving DecidableEq

/-- Modelled from the spec: outcome of one successful attempt. -/
structure DeliveryResult where
  providerName : String
  providerReference : String
deriving DecidableEq

/-- Modelled from the spec: the handler's response — success with the
delivery result, or an error with a status and a message. -/
inductive HandlerResponse where
  | ok : DeliveryResult → HandlerResponse
  | err : Nat → String → HandlerResponse
deriving DecidableEq

/-- Modelled from the spec: the terminal failure message. -/
def noProviderMessage : String := "No delivery provider configured or all providers failed"

/-- Modelled from the spec: the per-request environment fixing how
each of the three providers would behave. -/
structure Env where
  email : ProviderBehavior
  recordStore : ProviderBehavior
  spreadsheetAppend : ProviderBehavior
deriving DecidableEq

/-- Modelled from the spec: the fixed provider order Email,
Record-Store, Spreadsheet-Append. -/
def providerChain (env : Env) : List (String × ProviderBehavior) :=
  [("email", env.email), ("record-store", env.recordStore),
   ("spreadsheet-append", env.spreadsheetAppend)]

/-- Modelled from the spec: the fallback coordinator loop.  A provider
that is not configured is skipped silently; a configured provider is
invoked; on success the loop returns immediately with an ok response;
on failure the loop records the attempt and continues; an exhausted
loop returns the single terminal failure.  The second component lists
the adapters invoked, in order. -/
def deliverLoop : List (String × ProviderBehavior) → HandlerResponse × List String
  | [] => (HandlerResponse.err 500 noProviderMessage, [])
  | (pname, b) :: rest =>
    match b with
    | ProviderBehavior.notConfigured => deliverLoop rest
    | ProviderBehavior.failed =>
        let r := deliverLoop rest
        (r.1, pname :: r.2)
    | ProviderBehavior.succeeded ref =>
        (HandlerResponse.ok { providerName := pname, providerReference := ref }, [pname])

/-- Modelled from the spec: the lead handler runs the coordinator over
the fixed chain. -/
def handleLead (env : Env) : HandlerResponse × List String :=
  deliverLoop (providerChain env)

/-- Modelled from the spec: whether a provider behaviour is a
configured, succeeding attempt. -/
def ProviderBehavior.isSuccess : ProviderBehavior → Bool
  | ProviderBehavior.succeeded _ => true
  | _ => false

/-- C1: when the email provider is configured and its attempt
succeeds, the handler returns the ok response for the email provider
immediately, and neither the record-store adapter nor the
spreadsheet-append adapter is ever invoked. -/
theorem email_success_short_circuits (env : Env) (ref : String)
    (h : env.email = ProviderBehavior.succeeded ref) :
    handleLead env =
      (HandlerResponse.ok { providerName := "email", providerReference := ref }, ["email"]) ∧
    "record-store" ∉ (handleLead env).2 ∧ "spreadsheet-append" ∉ (handleLead env).2 := by
  have hrun : handleLead env =
      (HandlerResponse.ok { providerName := "email", providerReference := ref }, ["email"]) := by
    unfold handleLead providerChain deliverLoop
    rw [h]
  refine ⟨hrun, ?_, ?_⟩
  · rw [hrun]; simp
  · rw [hrun]; simp

/-- A sample environment in which the email provider succeeds while a
later provider is also configured. -/
def envEmailWins : Env :=
  { email := ProviderBehavior.succeeded "msg-1"
  , recordStore := ProviderBehavior.succeeded "rec-1"
  , spreadsheetAppend := ProviderBehavior.notConfigured }

theorem email_success_short_circuits_witness :
    handleLead envEmailWins =
      (HandlerResponse.ok { providerName := "email", providerReference := "msg-1" }, ["email"]) ∧
    "record-store" ∉ (handleLead envEmailWins).2 ∧
    "spreadsheet-append" ∉ (handleLead envEmailWins).2 :=
  email_success_short_circuits envEmailWins "msg-1" rfl

/-- C2: when no provider is configured, and likewise when every
configured provider fails, the handler returns the single terminal
failure response with the no-provider message and a server-error
status. -/
theorem all_fail_terminal_response (env : Env)
    (he : env.email.isSuccess = false)
    (hr : env.recordStore.isSuccess = false)
    (hs : env.spreadsheetAppend.isSuccess = false) :
    (handleLead env).1 = HandlerResponse.err 500 noProviderMessage := by
  unfold handleLead providerChain deliverLoop
  cases hem : env.email with
  | succeeded ref => rw [hem] at he; simp [ProviderBehavior.isSuccess] at he
  | notConfigured =>
      cases hrc : env.recordStore with
      | succeeded ref => rw [hrc] at hr; simp [ProviderBehavior.isSuccess] at hr
      | notConfigured =>
          cases hsp : env.spreadsheetAppend with
          | succeeded ref => rw [hsp] at hs; simp [ProviderBehavior.isSuccess] at hs
          | notConfigured => rfl
          | failed => rfl
      | failed =>
          cases hsp : env.spreadsheetAppend with
          | succeeded ref => rw [hsp] at hs; simp [ProviderBehavior.isSuccess] at hs
          | notConfigured => rfl
          | failed => rfl
  | failed =>
      cases hrc : env.recordStore with
      | succeeded ref => rw [hrc] at hr; simp [ProviderBehavior.isSuccess] at hr
      | notConfigured =>
          cases hsp : env.spreadsheetAppend with
          | succeeded ref => rw [hsp] at hs; simp [ProviderBehavior.isSuccess] at hs
          | notConfigured => rfl
          | failed => rfl
      | failed =>
          cases hsp : env.spreadsheetAppend with
          | succeeded ref => rw [hsp] at hs; simp [ProviderBehavior.isSuccess] at hs
          | notConfigured => rfl
          | failed => rfl

/-- A sample environment in which only the record-store provider is
configured and its attempt fails. -/
def envAllFail : Env :=
  { email := ProviderBehavior.notConfigured
  , recordStore := ProviderBehavior.failed
  , spreadsheetAppend := ProviderBehavior.notConfigured }

theorem all_fail_terminal_response_witness :
    (handleLead envAllFail).1 = HandlerResponse.err 500 noProviderMessage :=
  all_fail_terminal_response envAllFail rfl rfl rfl

/-- C3: when the configured email provider fails and the record-store
provider is configured and succeeds, the response reports the
record-store provider and the email failure is not surfaced; in
general a failing provider leaves the final response exactly what the
remaining chain produces, so its failure never prevents the next
provider from being attempted. -/
theorem email_failure_falls_through (env : Env) (ref : String)
    (he : env.email = ProviderBehavior.failed)
    (hr : env.recordStore = ProviderBehavior.succeeded ref) :
    handleLead env =
      (HandlerResponse.ok { providerName := "record-store", providerReference := ref },
        ["email", "record-store"]) ∧
    (∀ (pname : String) (rest : List (String × ProviderBehavior)),
      deliverLoop ((pname, ProviderBehavior.failed) :: rest) =
        ((deliverLoop rest).1, pname :: (deliverLoop rest).2)) := by
  constructor
  · unfold handleLead providerChain deliverLoop
    rw [he, hr]
    rfl
  · intro pname rest
    rfl

/-- A sample environment in which the email provider fails and the
record-store provider succeeds. -/
def envEmailFails : Env :=
  { email := ProviderBehavior.failed
  , recordStore := ProviderBehavior.succeeded "rec-9"
  , spreadsheetAppend := ProviderBehavior.notConfigured }

theorem email_failure_falls_through_witness :
    handleLead envEmailFails =
      (HandlerResponse.ok { providerName := "record-store", providerReference := "rec-9" },
        ["email", "record-store"]) ∧
    (∀ (pname : String) (rest : List (String × ProviderBehavior)),
      deliverLoop ((pname, ProviderBehavior.failed) :: rest) =
        ((deliverLoop rest).1, pname :: (deliverLoop rest).2)) :=
  email_failure_falls_through envEmailFails "rec-9" rfl rfl

end SKAssociate
